import Mathlib

/-
Verification development for the restaurant-booking conversational agent
(`songbird`).  The Python sources are shallowly embedded: JSON / Python
values become the inductive type `Value`, fallible Python code returns
`Except PyErr`, outbound HTTP traffic is modelled by an oracle function
together with an explicit log of the requests that were issued, and the
LLM service is modelled by an oracle giving the (already parsed) content
of each successive completion.
-/

namespace Songbird

/-- Python/JSON values as produced by `json.loads` (floats do not occur in
any of the embedded code paths).  `Value.null` is Python `None`. -/
inductive Value : Type
| null : Value
| bool : Bool → Value
| int : Int → Value
| str : String → Value
| list : List Value → Value
| dict : List (String × Value) → Value

/-- Python exceptions that the embedded code can raise. -/
inductive PyErr : Type
| toolError : String → PyErr
| typeError : String → PyErr
| valueError : String → PyErr
| attributeError : String → PyErr
| keyError : String → PyErr

/-- Association-list lookup, first binding wins.  `json.loads` never
produces duplicate keys, so this matches Python dict lookup. -/
def dLookup : List (String × Value) → String → Option Value
| [], _ => Option.none
| (k, v) :: t, key => if k == key then Option.some v else dLookup t key

/-- Python `d.get(key, default)` for a dict given as an association list. -/
def dGetD (kvs : List (String × Value)) (key : String) (d : Value) : Value :=
  (dLookup kvs key).getD d

/-- Python `key in d` for a dict. -/
def dHasKey (kvs : List (String × Value)) (key : String) : Bool :=
  (dLookup kvs key).isSome

/-- Python `d[key] = v`: replace the (unique) binding or append it. -/
def dictSet : List (String × Value) → String → Value → List (String × Value)
| [], key, v => [(key, v)]
| (k, w) :: t, key, v => if k == key then (key, v) :: t else (k, w) :: dictSet t key v

/-- Python `del d[key]`. -/
def dRemove : List (String × Value) → String → List (String × Value)
| [], _ => []
| (k, w) :: t, key => if k == key then t else (k, w) :: dRemove t key

/-- Python truthiness of a value. -/
def pyTruthy : Value → Bool
| Value.null => false
| Value.bool b => b
| Value.int n => !(n == 0)
| Value.str s => !(s == "")
| Value.list xs => !xs.isEmpty
| Value.dict kvs => !kvs.isEmpty

/-- Whitespace characters removed by Python `str.strip()`. -/
def isPySpace (c : Char) : Bool :=
  c == (' ') || c == ('\t') || c == ('\n') || c == ('\r') || c == ('\x0b') || c == ('\x0c')

/-- Python `s.strip()`. -/
def stripStr (s : String) : String :=
  String.mk (((s.data.dropWhile isPySpace).reverse.dropWhile isPySpace).reverse)

/- Python `repr` for containers, used by `str` on lists and dicts.  Inner
string quoting is rendered without escaping (no embedded quotes occur in
the embedded code paths). -/
mutual
def pyRepr : Value → String
| Value.null => "None"
| Value.bool b => if b then "True" else "False"
| Value.int n => toString n
| Value.str s => "\x27" ++ s ++ "\x27"
| Value.list xs => "[" ++ pyReprList xs ++ "]"
| Value.dict kvs => "\x7b" ++ pyReprDict kvs ++ "\x7d"
def pyReprList : List Value → String
| [] => ""
| [x] => pyRepr x
| x :: y :: t => pyRepr x ++ ", " ++ pyReprList (y :: t)
def pyReprDict : List (String × Value) → String
| [] => ""
| [(k, v)] => "\x27" ++ k ++ "\x27: " ++ pyRepr v
| (k, v) :: p :: t => "\x27" ++ k ++ "\x27: " ++ pyRepr v ++ ", " ++ pyReprDict (p :: t)
end

/-- Python `str(v)`. -/
def pyStr : Value → String
| Value.bool b => if b then "True" else "False"
| Value.int n => toString n
| Value.str s => s
| Value.null => "None"
| Value.list xs => pyRepr (Value.list xs)
| Value.dict kvs => pyRepr (Value.dict kvs)

/-- Python `==`.  The embedded code only ever compares scalars (channel
strings, tool names, a string needle against list elements); for those
cases this is exact, and Python `==` between a string and any structured
value is `False`, which the catch-all also delivers. -/
def pyEq : Value → Value → Bool
| Value.null, Value.null => true
| Value.bool a, Value.bool b => a == b
| Value.bool a, Value.int n => (if a then (1 : Int) else 0) == n
| Value.int n, Value.bool a => n == (if a then (1 : Int) else 0)
| Value.int a, Value.int b => a == b
| Value.str a, Value.str b => a == b
| _, _ => false

/-- Substring test on character lists (`needle` occurs inside the list). -/
def hasSub (needle : List Char) : List Char → Bool
| [] => needle.isEmpty
| c :: t => needle.isPrefixOf (c :: t) || hasSub needle t

/-- Python `needle in hay` for strings. -/
def strContainsSub (hay needle : String) : Bool :=
  hasSub needle.data hay.data

/-- Python `needle in v` (membership test). -/
def pyIn (needle : String) : Value → Except PyErr Bool
| Value.str s => Except.ok (strContainsSub s needle)
| Value.list xs => Except.ok (xs.any (fun v => pyEq v (Value.str needle)))
| Value.dict kvs => Except.ok (dHasKey kvs needle)
| Value.null => Except.error (PyErr.typeError ("argument of type NoneType is not iterable"))
| Value.bool _ => Except.error (PyErr.typeError ("argument of type bool is not iterable"))
| Value.int _ => Except.error (PyErr.typeError ("argument of type int is not iterable"))

/-- Digit-string value, `Option.none` when empty or a non-digit occurs. -/
def digitsVal : List Char → Option Nat
| [] => Option.none
| [c] => if c.isDigit then Option.some (c.toNat - ('0').toNat) else Option.none
| c :: d :: t =>
    if c.isDigit then
      match digitsVal (d :: t) with
      | Option.some n => Option.some ((c.toNat - ('0').toNat) * 10 ^ (d :: t).length + n)
      | Option.none => Option.none
    else Option.none

/-- Parse an optionally signed decimal integer, whole-string. -/
def parseIntStr (s : String) : Option Int :=
  match s.data with
  | ('-') :: rest => (digitsVal rest).map (fun n => -(n : Int))
  | ('+') :: rest => (digitsVal rest).map (fun n => (n : Int))
  | l => (digitsVal l).map (fun n => (n : Int))

/-- Python `int(v)`: identity on ints, 0/1 on bools, strict decimal parse
(after stripping surrounding whitespace) on strings, `TypeError` otherwise. -/
def pyInt : Value → Except PyErr Int
| Value.int n => Except.ok n
| Value.bool b => Except.ok (if b then 1 else 0)
| Value.str s =>
    match parseIntStr (stripStr s) with
    | Option.some n => Except.ok n
    | Option.none => Except.error (PyErr.valueError ("invalid literal for int() with base 10"))
| Value.null => Except.error (PyErr.typeError ("int() argument must not be None"))
| _ => Except.error (PyErr.typeError ("int() argument must be a string or a number"))

/-- Python `v.get(key, default)`, raising `AttributeError` on non-dicts. -/
def pyGetMethod (v : Value) (key : String) (d : Value) : Except PyErr Value :=
  match v with
  | Value.dict kvs => Except.ok (dGetD kvs key d)
  | _ => Except.error (PyErr.attributeError ("object has no attribute get"))

/-- Python `v[key]` subscription with a string key. -/
def pyIndex (v : Value) (key : String) : Except PyErr Value :=
  match v with
  | Value.dict kvs =>
      match dLookup kvs key with
      | Option.some x => Except.ok x
      | Option.none => Except.error (PyErr.keyError key)
  | _ => Except.error (PyErr.typeError ("value is not subscriptable by str"))

/-- Python `v.strip()`, raising `AttributeError` on non-strings. -/
def pyStrip (v : Value) : Except PyErr String :=
  match v with
  | Value.str s => Except.ok (stripStr s)
  | _ => Except.error (PyErr.attributeError ("object has no attribute strip"))

/-- `d.get(key, default)` when the receiver is statically known to be a
dict (used for the receptionist object, which always is). -/
def vGetD (v : Value) (key : String) (d : Value) : Value :=
  match v with
  | Value.dict kvs => dGetD kvs key d
  | _ => d

/-- Python `a or b` (value-level). -/
def pyOr (a b : Value) : Value :=
  if pyTruthy a then a else b

/-- String message carried by a Python exception (`str(e)`). -/
def errMsg : PyErr → String
| PyErr.toolError m => m
| PyErr.typeError m => m
| PyErr.valueError m => m
| PyErr.attributeError m => m
| PyErr.keyError k => "KeyError: " ++ k

/-
Embedding of `src/restaurant-agent/songbird/agent/llm.py`.

The two LLM calls of one pipeline invocation are modelled by oracles
giving, per attempt index, the content of that attempt after the
source's tolerant parsing step:
  * the receptionist oracle yields the result of `_safe_json_load(raw)`
    (`Option.none` covers both a transport failure and unparseable text);
  * the worker oracle yields the result of `_extract_tool_call(raw)`,
    which by construction is `Option.none` or a dict.
-/

/-- Per-tool required/optional argument keys. -/
structure ToolSchema : Type where
  required : List String
  optionalKeys : List String

/-- The `SCHEMAS` table of `llm.py`. -/
def SCHEMAS : List (String × ToolSchema) :=
  [ ("check_availability", ⟨["date", "people"], []⟩),
    ("make_reservation",
      ⟨["date", "time", "people"],
       ["SpecialRequests", "IsLeaveTimeConfirmed", "RoomNumber", "Customer[Title]",
        "Customer[FirstName]", "Customer[Surname]", "Customer[Email]", "Customer[Mobile]",
        "Customer[Phone]", "Customer[MobileCountryCode]", "Customer[PhoneCountryCode]",
        "Customer[ReceiveEmailMarketing]", "Customer[ReceiveSmsMarketing]"]⟩),
    ("check_reservation", ⟨["booking_reference"], []⟩),
    ("modify_reservation",
      ⟨["booking_reference"],
       ["VisitDate", "VisitTime", "PartySize", "SpecialRequests", "IsLeaveTimeConfirmed"]⟩),
    ("cancel_reservation", ⟨["booking_reference"], []⟩) ]

/-- Lookup in `SCHEMAS` by a (possibly non-string) tool-name value;
Python `name in SCHEMAS` only matches string keys. -/
def schemaLookup (name : Value) : Option ToolSchema :=
  match name with
  | Value.str s =>
      (SCHEMAS.find? (fun p => p.fst == s)).map Prod.snd
  | _ => Option.none

/-- `GeminiLLM._present`: `v is not None and str(v).strip() != ""`.
`str(v)` of a bool, int, list or dict is never whitespace-only, so only
`None` and blank strings are non-present. -/
def present : Value → Bool
| Value.null => false
| Value.str s => !(stripStr s == "")
| _ => true

/-- `GeminiLLM._validate_receptionist_json`: a dict whose key set is
exactly channel/message, channel one of the two routing strings, and a
string message. -/
def validate_receptionist_json : Option Value → Bool
| Option.some (Value.dict kvs) =>
    let keys := kvs.map Prod.fst
    (keys.all (fun k => k == ("channel") || k == ("message"))
      && (keys.contains ("channel") && keys.contains ("message")))
    && (pyEq (dGetD kvs ("channel") Value.null) (Value.str ("to_user"))
        || pyEq (dGetD kvs ("channel") Value.null) (Value.str ("to_data_entry")))
    && (match dGetD kvs ("message") Value.null with
        | Value.str _ => true
        | _ => false)
| _ => false

/-- The fallback decision returned by `_receptionist` when both attempts
produce output failing shape validation. -/
def recFallback : Value :=
  Value.dict
    [ ("channel", Value.str ("to_user")),
      ("message", Value.str ("Could you confirm the date and time (and number of people if booking)?")) ]

/-- One iteration of the receptionist retry loop: keep the parsed object
only when it passes shape validation. -/
def recAttempt (r : Option Value) : Option Value :=
  match r with
  | Option.some v => if validate_receptionist_json (Option.some v) then Option.some v else Option.none
  | Option.none => Option.none

/-- `GeminiLLM._receptionist`: up to two attempts (`for _ in range(2)`),
then the fixed fallback decision. -/
def receptionist (o : Nat → Option Value) : Value :=
  match recAttempt (o 0) with
  | Option.some v => v
  | Option.none =>
      match recAttempt (o 1) with
      | Option.some v => v
      | Option.none => recFallback

/-- The in-place `people` coercion performed inside `_data_entry_worker`:
`if "people" in tool_call.get("args", {}): try: ... int(...) except: pass`.
The `in` test itself is outside the `try` and can raise. -/
def coerce_people (tc : Value) : Except PyErr Value :=
  match pyGetMethod tc ("args") (Value.dict []) with
  | Except.error e => Except.error e
  | Except.ok args =>
      match pyIn ("people") args with
      | Except.error e => Except.error e
      | Except.ok false => Except.ok tc
      | Except.ok true =>
          match (pyIndex tc ("args")).bind (fun a => (pyIndex a ("people")).bind pyInt) with
          | Except.ok n =>
              (match tc, args with
               | Value.dict kvs, Value.dict akvs =>
                   Except.ok (Value.dict (dictSet kvs ("args") (Value.dict (dictSet akvs ("people") (Value.int n)))))
               | _, _ => Except.ok tc)
          | Except.error _ => Except.ok tc

/-- `GeminiLLM._data_entry_worker`: two extraction attempts; a successful
extraction is returned after the `people` coercion, otherwise `None`. -/
def data_entry_worker (o : Nat → Option Value) : Except PyErr (Option Value) :=
  match o 0 with
  | Option.some tc =>
      match coerce_people tc with
      | Except.error e => Except.error e
      | Except.ok tc2 => Except.ok (Option.some tc2)
  | Option.none =>
      match o 1 with
      | Option.some tc =>
          match coerce_people tc with
          | Except.error e => Except.error e
          | Except.ok tc2 => Except.ok (Option.some tc2)
      | Option.none => Except.ok Option.none

/-- `GeminiLLM._validate_tool_call`.  The Python function returns a bool
and mutates `tool_call["args"]["people"]` in place on the success path;
the mutation is modelled by also returning the (possibly updated) call.
Every internal exception is swallowed by the outer `try` into `False`;
with every schema's `required` list non-empty, a truthy non-dict `args`
is always caught at `args.get(k)` before the `people` block. -/
def validate_tool_call (tc : Value) : Bool × Value :=
  match tc with
  | Value.dict kvs =>
      let name := dGetD kvs ("name") Value.null
      let args := pyOr (dGetD kvs ("args") (Value.dict [])) (Value.dict [])
      match schemaLookup name with
      | Option.none => (false, tc)
      | Option.some sch =>
          match args with
          | Value.dict akvs =>
              if sch.required.all (fun k => present (dGetD akvs k Value.null)) then
                if dHasKey akvs ("people") then
                  match pyInt (dGetD akvs ("people") Value.null) with
                  | Except.ok n =>
                      (true, Value.dict (dictSet kvs ("args") (Value.dict (dictSet akvs ("people") (Value.int n)))))
                  | Except.error _ => (false, tc)
                else (true, tc)
              else (false, tc)
          | _ => (false, tc)
  | _ => (false, tc)

/-- `GeminiLLM._missing_from_tool_call`.  `args.get(k)` on a truthy
non-dict `args` raises `AttributeError`, which this function does NOT
catch (no surrounding `try`). -/
def missing_from_tool_call (tc : Value) : Except PyErr (List String) :=
  if pyTruthy tc == false then Except.ok [] else
  match tc with
  | Value.dict kvs =>
      let name := dGetD kvs ("name") Value.null
      let args := pyOr (dGetD kvs ("args") (Value.dict [])) (Value.dict [])
      match schemaLookup name with
      | Option.none => Except.ok []
      | Option.some sch =>
          match args with
          | Value.dict akvs =>
              let missing := sch.required.filter (fun k => !(present (dGetD akvs k Value.null)))
              if pyEq name (Value.str ("modify_reservation"))
                  && !(present (dGetD akvs ("new_date") Value.null)
                       || present (dGetD akvs ("new_time") Value.null)) then
                Except.ok (missing ++ ["new_date_or_new_time"])
              else Except.ok missing
          | _ => Except.error (PyErr.attributeError ("object has no attribute get"))
  | _ => Except.error (PyErr.attributeError ("object has no attribute get"))

/-- Python `m.replace('_', ' ')` on a field name. -/
def replaceUnderscores (s : String) : String :=
  String.mk (s.data.map (fun c => if c == ('_') then (' ') else c))

/-- The dedicated disambiguation question for the modify composite rule. -/
def disambigMsg : String :=
  "Would you like to change the date, the time, or both for your reservation? Please provide the new values."

/-- Python `", ".join(l)`. -/
def joinComma : List String → String
| [] => ""
| [x] => x
| x :: y :: t => x ++ ", " ++ joinComma (y :: t)

/-- `GeminiLLM._compose_missing_question`. -/
def compose_missing_question (missing : List String) : String :=
  if missing.isEmpty then
    "I need a bit more detail to proceed—could you confirm the date and time?"
  else if missing.contains ("new_date_or_new_time") then
    disambigMsg
  else if missing.length == 1 then
    "Got it, could you please share the " ++ replaceUnderscores (missing.headD "") ++ "?"
  else
    "Thanks! I still need: " ++ joinComma ((missing.take 2).map replaceUnderscores) ++ "."

/-- Result of one pipeline invocation: plain text for the user, or a
dispatched `{"tool_call": ...}` dict. -/
inductive ProcResult : Type
| text : String → ProcResult
| toolCall : Value → ProcResult

/-- Fixed generic fallback of the extraction branch. -/
def genericErrMsg : String :=
  "Sorry, I encountered some technical errors, can you resate your request?"

/-- Fail-safe text for an unparseable receptionist (dead in practice:
`_receptionist` always returns a dict). -/
def troubleMsg : String :=
  "I’m having trouble understanding,could you confirm the date, time, and (if booking) the number of people?"

/-- `GeminiLLM.process`: receptionist stage, routing, extraction stage,
post-validation, missing-field elicitation.  Mirrors the source line by
line; `Except.error` is a Python exception escaping to the caller. -/
def process (recO : Nat → Option Value) (workO : Nat → Option Value) : Except PyErr ProcResult :=
  let rec_obj := receptionist recO
  if pyTruthy rec_obj == false then Except.ok (ProcResult.text troubleMsg) else
  let channel := vGetD rec_obj ("channel") (Value.str ("to_user"))
  match pyStrip (vGetD rec_obj ("message") (Value.str (""))) with
  | Except.error e => Except.error e
  | Except.ok msg =>
      if pyEq channel (Value.str ("to_user")) || msg == "" then
        Except.ok (ProcResult.text
          (if msg == "" then "Could you share a bit more detail so I can help?" else msg))
      else if pyEq channel (Value.str ("to_data_entry")) then
        match data_entry_worker workO with
        | Except.error e => Except.error e
        | Except.ok tcOpt =>
            match tcOpt with
            | Option.some tc =>
                if pyTruthy tc then
                  match validate_tool_call tc with
                  | (true, tcv) => Except.ok (ProcResult.toolCall tcv)
                  | (false, tcv) =>
                      match missing_from_tool_call tcv with
                      | Except.error e => Except.error e
                      | Except.ok missing =>
                          if missing.isEmpty then Except.ok (ProcResult.text genericErrMsg)
                          else Except.ok (ProcResult.text (compose_missing_question missing))
                else Except.ok (ProcResult.text genericErrMsg)
            | Option.none => Except.ok (ProcResult.text genericErrMsg)
      else
        Except.ok (ProcResult.text
          (if msg == "" then "Could you clarify your request?" else msg))

/-
Embedding of `src/restaurant-agent/songbird/agent/tools.py`.

Outbound HTTP is an oracle from requests to responses; each tool returns
the list of requests it actually issued together with its result, so
"no HTTP call is attempted" is the request log being empty.  The module
defines `ToolError`, `_normalize_time`, `_validate_date`, `_validate_time`
and `_bool_to_str` twice; Python resolves module-level names at call
time, so the later definitions (lines 178-202) are the ones in effect
everywhere, and those are the ones embedded here.
-/

/-- HTTP request method used by the tools. -/
inductive HttpMethod : Type
| get : HttpMethod
| post : HttpMethod
| patch : HttpMethod

/-- An outbound HTTP request: method, full URL and form data. -/
structure HttpReq : Type where
  method : HttpMethod
  url : String
  formData : List (String × Value)

/-- Failure modes of the booking API transport, as distinguished by the
`except` clauses of `call_api` / `call_api_get`. -/
inductive ApiFail : Type
| requestException : String → ApiFail
| invalidJson : ApiFail

/-- The booking API as an oracle. -/
def Oracle : Type := HttpReq → Except ApiFail Value

/-- `BASE_URL` constant. -/
def BASE_URL : String := "http://localhost:8547/api/ConsumerApi/v1/Restaurant/"

/-- `RESTAURANT_NAME` constant. -/
def RESTAURANT_NAME : String := "TheHungryUnicorn"

/-- `call_api`: POST to `{BASE_URL}{RESTAURANT_NAME}/{endpoint}`, mapping
transport failure and bad JSON to `ToolError`. -/
def call_api (o : Oracle) (endpoint : String) (params : List (String × Value)) :
    List HttpReq × Except PyErr Value :=
  let req : HttpReq := ⟨HttpMethod.post, BASE_URL ++ RESTAURANT_NAME ++ "/" ++ endpoint, params⟩
  ([req],
    match o req with
    | Except.ok j => Except.ok j
    | Except.error (ApiFail.requestException m) =>
        Except.error (PyErr.toolError ("API request failed: " ++ m))
    | Except.error ApiFail.invalidJson =>
        Except.error (PyErr.toolError ("Invalid JSON response from server.")))

/-- `call_api_get`: GET for `check_reservation`, PATCH for any other
non-empty `func_name`, POST to the `/Cancel` sub-path otherwise; the
booking reference is removed from the form data for PATCH and POST. -/
def call_api_get (o : Oracle) (endpoint : String) (params : List (String × Value))
    (func_name : String) : List HttpReq × Except PyErr Value :=
  match dLookup params ("booking_reference") with
  | Option.none => ([], Except.error (PyErr.keyError ("booking_reference")))
  | Option.some reference =>
      let urlBase := BASE_URL ++ RESTAURANT_NAME ++ "/" ++ endpoint ++ "/" ++ pyStr reference
      let req : HttpReq :=
        if func_name == "check_reservation" then ⟨HttpMethod.get, urlBase, []⟩
        else if !(func_name == "") then
          ⟨HttpMethod.patch, urlBase, dRemove params ("booking_reference")⟩
        else
          ⟨HttpMethod.post, urlBase ++ "/Cancel", dRemove params ("booking_reference")⟩
      ([req],
        match o req with
        | Except.ok j => Except.ok j
        | Except.error (ApiFail.requestException m) =>
            Except.error (PyErr.toolError ("API request failed: " ++ m))
        | Except.error ApiFail.invalidJson =>
            Except.error (PyErr.toolError ("Invalid JSON response from server.")))

/-- Python `s.split(sep)` on character lists (keeps empty parts). -/
def splitChar (sep : Char) : List Char → List (List Char)
| [] => [[]]
| c :: t =>
    match splitChar sep t with
    | [] => if c == sep then [[], []] else [[c]]
    | h :: rt => if c == sep then [] :: h :: rt else (c :: h) :: rt

/-- Day count per month of the proleptic Gregorian calendar, as enforced
by `datetime.strptime` with format `%Y-%m-%d`. -/
def daysInMonth (y m : Nat) : Nat :=
  if m == 2 then (if (y % 4 == 0 && !(y % 100 == 0)) || y % 400 == 0 then 29 else 28)
  else if m == 4 || m == 6 || m == 9 || m == 11 then 30
  else 31

/-- Success of `datetime.strptime(s, "%Y-%m-%d")`: exactly four year
digits, a 1-2 digit month in 1..12, a 1-2 digit day valid for the month. -/
def isValidYmd (s : String) : Bool :=
  match (splitChar ('-') s.data).map (fun p => (p.length, digitsVal p)) with
  | [(4, Option.some y), (ml, Option.some m), (dl, Option.some d)] =>
      decide (ml ≤ 2) && decide (dl ≤ 2)
      && decide (1 ≤ m) && decide (m ≤ 12)
      && decide (1 ≤ d) && decide (d ≤ daysInMonth y m)
  | _ => false

/-- Success of `datetime.strptime(s, "%H:%M:%S")`: 1-2 digit fields,
hour 0..23, minute and second 0..59. -/
def isValidHms (s : String) : Bool :=
  match (splitChar (':') s.data).map (fun p => (p.length, digitsVal p)) with
  | [(hl, Option.some h), (ml, Option.some m), (sl, Option.some sec)] =>
      decide (hl ≤ 2) && decide (ml ≤ 2) && decide (sl ≤ 2)
      && decide (h ≤ 23) && decide (m ≤ 59) && decide (sec ≤ 59)
  | _ => false

/-- `_validate_date` (second definition, in effect at every call site). -/
def validate_date (v : Value) : Except PyErr Unit :=
  match v with
  | Value.str s =>
      if isValidYmd s then Except.ok ()
      else Except.error (PyErr.toolError ("VisitDate must be in YYYY-MM-DD format."))
  | _ => Except.error (PyErr.typeError ("strptime() argument 1 must be str"))

/-- `_validate_time` (second definition). -/
def validate_time (v : Value) : Except PyErr Unit :=
  match v with
  | Value.str s =>
      if isValidHms s then Except.ok ()
      else Except.error (PyErr.toolError ("VisitTime must be in HH:MM:SS format."))
  | _ => Except.error (PyErr.typeError ("strptime() argument 1 must be str"))

/-- `_normalize_time` (second definition): HH:MM gains ":00", HH:MM:SS is
kept, anything else is a `ToolError`. -/
def normalize_time (v : Value) : Except PyErr String :=
  match v with
  | Value.str s =>
      match (splitChar (':') s.data).length with
      | 2 => Except.ok (s ++ ":00")
      | 3 => Except.ok s
      | _ => Except.error (PyErr.toolError ("VisitTime must be HH:MM or HH:MM:SS."))
  | _ => Except.error (PyErr.attributeError ("object has no attribute split"))

/-- `_bool_to_str` (second definition): truthiness of the argument. -/
def bool_to_str (v : Value) : String :=
  if pyTruthy v then "true" else "false"

/-- Python `people <= 0` where `people` is an arbitrary value: numeric
for ints and bools, `TypeError` otherwise. -/
def pyLeZero (v : Value) : Except PyErr Bool :=
  match v with
  | Value.int n => Except.ok (decide (n ≤ 0))
  | Value.bool b => Except.ok (b == false)
  | _ => Except.error (PyErr.typeError ("unsupported comparison with int"))

/-- `check_availability`: falsy date or people raise, otherwise one POST
to `AvailabilitySearch` and the `available_slots` field of the response. -/
def check_availability (o : Oracle) (date people : Value) :
    List HttpReq × Except PyErr Value :=
  if !(pyTruthy date) || !(pyTruthy people) then
    ([], Except.error (PyErr.toolError ("Missing date people for availability check.")))
  else
    match call_api o ("AvailabilitySearch")
        [(("VisitDate"), date), (("PartySize"), people), (("ChannelCode"), Value.str ("ONLINE"))] with
    | (log, Except.error e) => (log, Except.error e)
    | (log, Except.ok resp) => (log, pyIndex resp ("available_slots"))

/-- The `Customer[...]` flattening loop of `make_reservation`: keep only
non-`None` entries whose stripped string form is non-empty. -/
def customerFields : List (String × Value) → List (String × Value)
| [] => []
| (k, v) :: t =>
    match v with
    | Value.null => customerFields t
    | _ =>
        let s := stripStr (pyStr v)
        if s == "" then customerFields t
        else ("Customer[" ++ k ++ "]", Value.str s) :: customerFields t

/-- The trailing POST of `make_reservation` plus its response handling:
the confirmation string on a truthy `booking_reference`, a `ToolError`
otherwise. -/
def makeReservationCall (o : Oracle) (payload : List (String × Value)) :
    List HttpReq × Except PyErr Value :=
  match call_api o ("BookingWithStripeToken") payload with
  | (log, Except.error e) => (log, Except.error e)
  | (log, Except.ok resp) =>
      match pyGetMethod resp ("booking_reference") Value.null with
      | Except.error e => (log, Except.error e)
      | Except.ok bref =>
          if pyTruthy bref then
            (log, Except.ok (Value.str ("Reservation confirmed! Your reference is " ++ pyStr bref ++ ".")))
          else (log, Except.error (PyErr.toolError ("Failed to book reservation.")))

/-- `make_reservation` (the single definition of the module, lines
105-162): validation, payload assembly with optional fields, one POST to
`BookingWithStripeToken`, and the confirmation string on a truthy
`booking_reference` in the response. -/
def make_reservation (o : Oracle) (date time people : Value)
    (channel_code special_requests is_leave_time_confirmed room_number customer : Value) :
    List HttpReq × Except PyErr Value :=
  if !(pyTruthy date) || !(pyTruthy time) || !(pyTruthy people) then
    ([], Except.error (PyErr.toolError ("Missing one or more booking parameters.")))
  else
    match pyLeZero people with
    | Except.error e => ([], Except.error e)
    | Except.ok true => ([], Except.error (PyErr.toolError ("PartySize must be a positive integer.")))
    | Except.ok false =>
        match validate_date date with
        | Except.error e => ([], Except.error e)
        | Except.ok _ =>
            match normalize_time time with
            | Except.error e => ([], Except.error e)
            | Except.ok timeN =>
                match validate_time (Value.str timeN) with
                | Except.error e => ([], Except.error e)
                | Except.ok _ =>
                    let payload :=
                      [ (("VisitDate"), date), (("VisitTime"), Value.str timeN),
                        (("PartySize"), Value.str (pyStr people)), (("ChannelCode"), channel_code) ]
                      ++ (if pyTruthy special_requests then [(("SpecialRequests"), special_requests)] else [])
                      ++ (match is_leave_time_confirmed with
                          | Value.null => []
                          | v => [(("IsLeaveTimeConfirmed"), Value.str (bool_to_str v))])
                      ++ (if pyTruthy room_number then [(("RoomNumber"), room_number)] else [])
                    match customer with
                    | Value.null => makeReservationCall o payload
                    | Value.dict ckvs =>
                        if pyTruthy (Value.dict ckvs) then
                          makeReservationCall o (payload ++ customerFields ckvs)
                        else makeReservationCall o payload
                    | v =>
                        if pyTruthy v then
                          ([], Except.error (PyErr.attributeError ("object has no attribute items")))
                        else makeReservationCall o payload

/-- `check_reservation`: falsy reference raises a `ToolError` before any
request; otherwise one GET via `call_api_get` and the response itself. -/
def check_reservation (o : Oracle) (booking_reference : Value) :
    List HttpReq × Except PyErr Value :=
  if !(pyTruthy booking_reference) then
    ([], Except.error (PyErr.toolError ("Booking reference is required.")))
  else
    call_api_get o ("Booking") [(("booking_reference"), booking_reference)] ("check_reservation")

/-- Payload contribution of the `if VisitDate:` block of
`modify_reservation`. -/
def visitDateField (VisitDate : Value) : Except PyErr (List (String × Value)) :=
  if pyTruthy VisitDate then
    match validate_date VisitDate with
    | Except.error e => Except.error e
    | Except.ok _ => Except.ok [(("VisitDate"), VisitDate)]
  else Except.ok []

/-- Payload contribution of the `if VisitTime:` block. -/
def visitTimeField (VisitTime : Value) : Except PyErr (List (String × Value)) :=
  if pyTruthy VisitTime then
    match normalize_time VisitTime with
    | Except.error e => Except.error e
    | Except.ok tN =>
        match validate_time (Value.str tN) with
        | Except.error e => Except.error e
        | Except.ok _ => Except.ok [(("VisitTime"), Value.str tN)]
  else Except.ok []

/-- Payload contribution of the `if PartySize is not None:` block: bools
are rejected, `int(PartySize)` may itself raise, non-positive sizes are a
`ToolError`. -/
def partySizeField (PartySize : Value) : Except PyErr (List (String × Value)) :=
  match PartySize with
  | Value.null => Except.ok []
  | Value.bool _ => Except.error (PyErr.toolError ("PartySize must be a positive integer."))
  | v =>
      match pyInt v with
      | Except.error e => Except.error e
      | Except.ok n =>
          if decide (n ≤ 0) then Except.error (PyErr.toolError ("PartySize must be a positive integer."))
          else Except.ok [(("PartySize"), Value.str (toString n))]

/-- Payload contribution of the `if SpecialRequests:` block. -/
def specialRequestsField (SpecialRequests : Value) : List (String × Value) :=
  if pyTruthy SpecialRequests then [(("SpecialRequests"), SpecialRequests)] else []

/-- Payload contribution of the `if IsLeaveTimeConfirmed is not None:`
block: any non-`None` value is included after `_bool_to_str`. -/
def leaveTimeField (IsLeaveTimeConfirmed : Value) : List (String × Value) :=
  match IsLeaveTimeConfirmed with
  | Value.null => []
  | v => [(("IsLeaveTimeConfirmed"), Value.str (bool_to_str v))]

/-- `modify_reservation` (lines 204-249): reference check, per-field
payload assembly in source order, the `len(payload) == 1` no-changes
check, then one PATCH via `call_api_get` and `str(response)`. -/
def modify_reservation (o : Oracle) (booking_reference : Value)
    (VisitDate VisitTime PartySize SpecialRequests IsLeaveTimeConfirmed : Value) :
    List HttpReq × Except PyErr Value :=
  if !(pyTruthy booking_reference) then
    ([], Except.error (PyErr.toolError ("Booking reference is required to modify a reservation.")))
  else
    match visitDateField VisitDate with
    | Except.error e => ([], Except.error e)
    | Except.ok fd =>
        match visitTimeField VisitTime with
        | Except.error e => ([], Except.error e)
        | Except.ok ft =>
            match partySizeField PartySize with
            | Except.error e => ([], Except.error e)
            | Except.ok fp =>
                let payload := [(("booking_reference"), booking_reference)]
                  ++ fd ++ ft ++ fp
                  ++ specialRequestsField SpecialRequests
                  ++ leaveTimeField IsLeaveTimeConfirmed
                if payload.length == 1 then
                  ([], Except.error (PyErr.toolError
                    ("No changes provided. Include at least one field to modify.")))
                else
                  match call_api_get o ("Booking") payload ("modify_reservation") with
                  | (log, Except.error e) => (log, Except.error e)
                  | (log, Except.ok resp) => (log, Except.ok (Value.str (pyStr resp)))

/-- `cancel_reservation`: falsy reference raises, otherwise one POST to
the `/Cancel` sub-path and `str(response)`. -/
def cancel_reservation (o : Oracle) (booking_reference : Value) :
    List HttpReq × Except PyErr Value :=
  if !(pyTruthy booking_reference) then
    ([], Except.error (PyErr.toolError ("Booking reference is required for cancellation.")))
  else
    match call_api_get o ("Booking")
        [ (("micrositeName"), Value.str RESTAURANT_NAME),
          (("booking_reference"), booking_reference),
          (("bookingReference"), booking_reference),
          (("cancellationReasonId"), Value.int 1) ] ("") with
    | (log, Except.error e) => (log, Except.error e)
    | (log, Except.ok resp) => (log, Except.ok (Value.str (pyStr resp)))

/-
Embedding of `src/restaurant-agent/songbird/agent/agent.py`.

`execute_tool` invokes the registered handler with the call's `args`
expanded as keyword arguments; the expansion itself can raise `TypeError`
(non-mapping `args`, unknown or missing parameter names), which the
surrounding `try` turns into an `[Execution Error]` string like any other
handler failure.
-/

/-- The five registered tool names. -/
inductive ToolName : Type
| availabilityTool : ToolName
| makeTool : ToolName
| checkTool : ToolName
| modifyTool : ToolName
| cancelTool : ToolName

/-- `self.tool_registry.get(tool_name)`: only exact string keys match.
Hashable non-string names (`None`, bools, ints) simply miss; an
unhashable name (a JSON array or object) makes `dict.get` itself raise
`TypeError`, and this call sits outside the `try` of `execute_tool`. -/
def registryLookup : Value → Except PyErr (Option ToolName)
| Value.str s =>
    if s == "check_availability" then Except.ok (Option.some ToolName.availabilityTool)
    else if s == "make_reservation" then Except.ok (Option.some ToolName.makeTool)
    else if s == "check_reservation" then Except.ok (Option.some ToolName.checkTool)
    else if s == "modify_reservation" then Except.ok (Option.some ToolName.modifyTool)
    else if s == "cancel_reservation" then Except.ok (Option.some ToolName.cancelTool)
    else Except.ok Option.none
| Value.list _ => Except.error (PyErr.typeError ("unhashable type: list"))
| Value.dict _ => Except.error (PyErr.typeError ("unhashable type: dict"))
| _ => Except.ok Option.none

/-- Keyword-argument binding check for `tool_func(**args)`: every
parameter without a default must be supplied, and no unknown keyword may
appear. -/
def bindOk (akvs : List (String × Value)) (required allowed : List String) : Bool :=
  required.all (fun k => dHasKey akvs k) && akvs.all (fun p => allowed.contains p.fst)

/-- `tool_func(**args)` for the registered handlers: keyword expansion
followed by the handler itself.  A non-mapping `args` or a binding
failure is the `TypeError` Python raises before the handler body runs. -/
def callTool (o : Oracle) (t : ToolName) (args : Value) : List HttpReq × Except PyErr Value :=
  match args with
  | Value.dict akvs =>
      match t with
      | ToolName.availabilityTool =>
          if bindOk akvs ["date", "people"] ["date", "people"] then
            check_availability o (dGetD akvs ("date") Value.null) (dGetD akvs ("people") Value.null)
          else ([], Except.error (PyErr.typeError ("invalid keyword arguments for check_availability()")))
      | ToolName.makeTool =>
          if bindOk akvs ["date", "time", "people"]
              ["date", "time", "people", "channel_code", "special_requests",
               "is_leave_time_confirmed", "room_number", "customer"] then
            make_reservation o (dGetD akvs ("date") Value.null) (dGetD akvs ("time") Value.null)
              (dGetD akvs ("people") Value.null)
              (dGetD akvs ("channel_code") (Value.str ("ONLINE")))
              (dGetD akvs ("special_requests") Value.null)
              (dGetD akvs ("is_leave_time_confirmed") Value.null)
              (dGetD akvs ("room_number") Value.null)
              (dGetD akvs ("customer") Value.null)
          else ([], Except.error (PyErr.typeError ("invalid keyword arguments for make_reservation()")))
      | ToolName.checkTool =>
          if bindOk akvs ["booking_reference"] ["booking_reference"] then
            check_reservation o (dGetD akvs ("booking_reference") Value.null)
          else ([], Except.error (PyErr.typeError ("invalid keyword arguments for check_reservation()")))
      | ToolName.modifyTool =>
          if bindOk akvs ["booking_reference"]
              ["booking_reference", "VisitDate", "VisitTime", "PartySize",
               "SpecialRequests", "IsLeaveTimeConfirmed"] then
            modify_reservation o (dGetD akvs ("booking_reference") Value.null)
              (dGetD akvs ("VisitDate") Value.null) (dGetD akvs ("VisitTime") Value.null)
              (dGetD akvs ("PartySize") Value.null) (dGetD akvs ("SpecialRequests") Value.null)
              (dGetD akvs ("IsLeaveTimeConfirmed") Value.null)
          else ([], Except.error (PyErr.typeError ("invalid keyword arguments for modify_reservation()")))
      | ToolName.cancelTool =>
          if bindOk akvs ["booking_reference"] ["booking_reference"] then
            cancel_reservation o (dGetD akvs ("booking_reference") Value.null)
          else ([], Except.error (PyErr.typeError ("invalid keyword arguments for cancel_reservation()")))
  | _ => ([], Except.error (PyErr.typeError ("argument after ** must be a mapping")))

/-- `ConversationalAgent.execute_tool` on a tool-call dict: registry
lookup, handler invocation, and the three labelled error strings.
Handler failures are caught by the `try`: `ToolError` becomes
`[Tool Error] ...`, any other exception `[Execution Error] ...`.  The
registry lookup itself happens before the `try`, so the `TypeError` it
raises on an unhashable name value propagates to the caller
(`Except.error`), with no HTTP request issued. -/
def execute_tool (o : Oracle) (tcd : List (String × Value)) :
    List HttpReq × Except PyErr Value :=
  let tool_name := dGetD tcd ("name") Value.null
  let args := dGetD tcd ("args") (Value.dict [])
  match registryLookup tool_name with
  | Except.error e => ([], Except.error e)
  | Except.ok Option.none =>
      ([], Except.ok (Value.str ("[Error] Unknown tool: `" ++ pyStr tool_name ++ "`")))
  | Except.ok (Option.some t) =>
      match callTool o t args with
      | (log, Except.ok v) => (log, Except.ok v)
      | (log, Except.error (PyErr.toolError m)) =>
          (log, Except.ok (Value.str ("[Tool Error] " ++ m)))
      | (log, Except.error e) =>
          (log, Except.ok (Value.str ("[Execution Error] Something went wrong while using `"
            ++ pyStr tool_name ++ "`: " ++ errMsg e)))

/-- One pipeline result as seen by the controller loop: `process` returns
either a string or a `{"tool_call": ...}` dict. -/
inductive LlmReply : Type
| text : String → LlmReply
| toolCall : Value → LlmReply

/-- The loop guard `isinstance(llm_reply, dict) and "tool_call" in llm_reply`. -/
def isToolCallReply : LlmReply → Bool
| LlmReply.text _ => false
| LlmReply.toolCall _ => true

/-- The fixed apology substituted when the controller cap is hit. -/
def apologyMsg : String :=
  "Sorry, I have encountered an error, please can you repeat your request"

/-- The `while` loop of `handle_user_input`.  `proc k` is the result of
the `k`-th `self.llm.process(...)` invocation of this user turn (the
evolving history is absorbed into the index).  The guard `i < 4` bounds
the iteration count by 4, so fuel 4 makes the recursion exact: when the
fuel runs out the guard is false as well. -/
def toolLoopAux (proc : Nat → LlmReply) : Nat → LlmReply → Nat → LlmReply × Nat
| 0, reply, i => (reply, i)
| fuel + 1, reply, i =>
    if isToolCallReply reply && decide (i < 4) then
      toolLoopAux proc fuel (proc (i + 1)) (i + 1)
    else (reply, i)

/-- `ConversationalAgent.handle_user_input` for one user turn, returning
the final reply and the number of tool dispatches (`execute_tool` calls).
After the loop the source replaces the reply with the fixed apology
whenever `i > 3`, i.e. whenever 4 dispatches occurred, regardless of what
the 5th pipeline output was. -/
def handle_user_input (proc : Nat → LlmReply) : LlmReply × Nat :=
  match toolLoopAux proc 4 (proc 0) 0 with
  | (r, i) => (if decide (3 < i) then LlmReply.text apologyMsg else r, i)

/-
Embedding of `src/songbird/agent/memory.py` (long-term memory).  The
per-user append-only `{user_id}_memory.jsonl` files are modelled as a map
from user id to the list of records in that user's file; the round trip
through `json.dumps` / `json.loads` of the standard library is the
identity on records and each dumped record occupies exactly one line.
-/

/-- One history turn. -/
structure Turn : Type where
  role : String
  content : String

/-- One long-term summary record, the JSON object written per line. -/
structure SummaryRecord : Type where
  timestamp : String
  summary : String
  messages : List Turn

/-- All users' summary files. -/
def Store : Type := String → List SummaryRecord

/-- `Memory.store_summary`: append one record to this user's file. -/
def store_summary (fs : Store) (user_id : String) (history : List Turn)
    (timestamp : String) (summary : String) : Store :=
  fun u => if u == user_id then fs u ++ [⟨timestamp, summary, history⟩] else fs u

/-- `Memory.get_last_summary`: the `summary` field of the last line of
this user's file, `Option.none` when the file is missing or empty. -/
def get_last_summary (fs : Store) (user_id : String) : Option String :=
  match (fs user_id).getLast? with
  | Option.none => Option.none
  | Option.some r => Option.some r.summary

/-
Concrete fixtures used by the claim theorems, their witnesses and the
counterexamples.
-/

/-- A tool call of the canonical `{"name": ..., "args": {...}}` shape. -/
def mkToolCall (n : String) (akvs : List (String × Value)) : Value :=
  Value.dict [(("name"), Value.str n), (("args"), Value.dict akvs)]

/-- A receptionist oracle that always hands off to the data-entry stage. -/
def recToDataEntry : Nat → Option Value := fun _ =>
  Option.some (Value.dict
    [(("channel"), Value.str ("to_data_entry")), (("message"), Value.str ("Book a table"))])

/-- A worker oracle extracting the same tool call on every attempt. -/
def constW (v : Value) : Nat → Option Value := fun _ => Option.some v

/-- A booking API returning the same JSON body to every request. -/
def okOracle (v : Value) : Oracle := fun _ => Except.ok v

/-- A modify call carrying only a booking reference. -/
def c2_call : Value :=
  mkToolCall ("modify_reservation") [(("booking_reference"), Value.str ("ABC123"))]

/-- A modify call with empty args. -/
def c3_call : Value := mkToolCall ("modify_reservation") []

/-- An extracted call whose `args` field is JSON `null`. -/
def c5_call : Value :=
  Value.dict [(("name"), Value.str ("check_availability")), (("args"), Value.null)]

/-- The worker extraction of the booking example, party size still a string. -/
def c7_call : Value :=
  mkToolCall ("make_reservation")
    [(("date"), Value.str ("2025-08-10")), (("time"), Value.str ("19:00")),
     (("people"), Value.str ("4"))]

/-- The same call after the `people` coercion. -/
def c7_coerced : Value :=
  mkToolCall ("make_reservation")
    [(("date"), Value.str ("2025-08-10")), (("time"), Value.str ("19:00")),
     (("people"), Value.int 4)]

/-- A booking API answering every request with a confirmed reference. -/
def c7_oracle : Oracle :=
  okOracle (Value.dict [(("booking_reference"), Value.str ("ABC123"))])

/-- The dispatched tool-call dict of the booking example. -/
def c7_dispatch : List (String × Value) :=
  [(("name"), Value.str ("make_reservation")),
   (("args"), Value.dict
     [(("date"), Value.str ("2025-08-10")), (("time"), Value.str ("19:00")),
      (("people"), Value.int 4)])]

/-- A pipeline that yields a tool call four times and then plain text. -/
def c1_loopProc : Nat → LlmReply := fun n =>
  if n < 4 then
    LlmReply.toolCall (mkToolCall ("check_reservation") [(("booking_reference"), Value.str ("R"))])
  else LlmReply.text ("done")

/-- A pipeline that immediately answers with plain text. -/
def c1_textProc : Nat → LlmReply := fun _ => LlmReply.text ("Hello!")

/-- A booking API answering every request with a status dict. -/
def c6_oracle : Oracle := okOracle (Value.dict [(("status"), Value.str ("confirmed"))])

/-- A check call on an existing reference. -/
def c6_call : List (String × Value) :=
  [(("name"), Value.str ("check_reservation")),
   (("args"), Value.dict [(("booking_reference"), Value.str ("ABC123"))])]

/-- A booking API answering every request with the string body `ok`. -/
def c10_oracle : Oracle := okOracle (Value.str ("ok"))

/-
Helper lemmas.
-/

theorem isPrefixOf_append_self (l r : List Char) : l.isPrefixOf (l ++ r) = true := by
  induction l with
  | nil => simp [List.isPrefixOf]
  | cons c t ih => simp [List.isPrefixOf, ih]

theorem hasSub_append (s a b : List Char) : hasSub s (a ++ (s ++ b)) = true := by
  induction a with
  | nil =>
      cases s with
      | nil =>
          cases b with
          | nil => rfl
          | cons c t => simp [hasSub, List.isPrefixOf]
      | cons c t => simp [hasSub, isPrefixOf_append_self]
  | cons c t ih => simp [hasSub, ih]

theorem strContainsSub_of_data (hay needle : String) (a b : List Char)
    (h : hay.data = a ++ (needle.data ++ b)) : strContainsSub hay needle = true := by
  unfold strContainsSub
  rw [h]
  exact hasSub_append _ _ _

theorem dGetD_dictSet_self (l : List (String × Value)) (k : String) (v d : Value) :
    dGetD (dictSet l k v) k d = v := by
  induction l with
  | nil => simp [dictSet, dGetD, dLookup]
  | cons p t ih =>
      by_cases h : p.fst == k
      · simp [dictSet, h, dGetD, dLookup]
      · simpa [dictSet, h, dGetD, dLookup] using ih

theorem dGetD_dictSet_ne (l : List (String × Value)) (k k2 : String) (v d : Value)
    (h : (k2 == k) = false) : dGetD (dictSet l k2 v) k d = dGetD l k d := by
  induction l with
  | nil => simp [dictSet, dGetD, dLookup, h]
  | cons p t ih =>
      by_cases hp : p.fst == k2
      · have hpk : (p.fst == k) = false := by
          have : p.fst = k2 := by simpa using hp
          simpa [this] using h
        simp [dictSet, hp, dGetD, dLookup, h, hpk]
      · by_cases hk : p.fst == k
        · simp [dictSet, hp, dGetD, dLookup, hk]
        · simpa [dictSet, hp, dGetD, dLookup, hk] using ih

theorem parseIntStr_empty : parseIntStr ("") = Option.none := rfl

theorem present_of_pyInt_ok (v : Value) (n : Int) (h : pyInt v = Except.ok n) :
    present v = true := by
  cases v with
  | int m => rfl
  | bool b => rfl
  | str s =>
      simp only [present, Bool.not_eq_true']
      by_contra hs
      rw [Bool.not_eq_false] at hs
      have hs2 : stripStr s = "" := by simpa using hs
      rw [pyInt, hs2, parseIntStr_empty] at h
      simp at h
  | null => simp [pyInt] at h
  | list xs => simp [pyInt] at h
  | dict kvs => simp [pyInt] at h

theorem pyOr_dict_empty (l : List (String × Value)) :
    pyOr (Value.dict l) (Value.dict []) = Value.dict l := by
  cases l <;> rfl

theorem all_eq_false_of_mem (l : List String) (f : String → Bool) (x : String)
    (hx : x ∈ l) (hf : f x = false) : l.all f = false := by
  by_contra hcon
  rw [Bool.not_eq_false] at hcon
  have := List.all_eq_true.mp hcon x hx
  rw [hf] at this
  exact Bool.false_ne_true this

/-
Claim theorems.
-/

/-- C8: storing a summary for a user and then asking for that user's last
summary returns exactly the stored text: `get_last_summary` after
`store_summary` is the just-written summary, for every summary string,
every prior file content and every history snapshot. -/
theorem C8_summary_roundtrip (fs : Store) (u : String) (hist : List Turn) (ts s : String) :
    get_last_summary (store_summary fs u hist ts s) u = Option.some s := by
  simp [get_last_summary, store_summary, List.getLast?_concat]

/-- C9: `check_reservation` with a falsy booking reference returns the
domain `ToolError` without issuing any HTTP request (empty request log,
for every oracle), while a non-empty string reference issues exactly one
GET to the booking endpoint for that reference. -/
theorem C9_check_reservation_guard (o : Oracle) (ref : Value) :
    (pyTruthy ref = false →
      check_reservation o ref
        = ([], Except.error (PyErr.toolError ("Booking reference is required."))))
    ∧ (∀ s : String, ref = Value.str s → s ≠ "" →
        (check_reservation o ref).1
          = [⟨HttpMethod.get, BASE_URL ++ RESTAURANT_NAME ++ "/" ++ "Booking" ++ "/" ++ s, []⟩]) := by
  constructor
  · intro h
    simp [check_reservation, h]
  · intro s hs hne
    subst hs
    have ht : pyTruthy (Value.str s) = true := by
      simp [pyTruthy, hne]
    simp [check_reservation, ht, call_api_get, dLookup, pyStr]

/-- C9 witness: the guard at the empty reference and the GET at `ABC123`. -/
theorem C9_check_reservation_guard_witness :
    check_reservation c6_oracle (Value.str (""))
      = ([], Except.error (PyErr.toolError ("Booking reference is required.")))
    ∧ (check_reservation c6_oracle (Value.str ("ABC123"))).1
      = [⟨HttpMethod.get, BASE_URL ++ RESTAURANT_NAME ++ "/" ++ "Booking" ++ "/" ++ "ABC123", []⟩] :=
  ⟨(C9_check_reservation_guard c6_oracle (Value.str (""))).1 rfl,
   (C9_check_reservation_guard c6_oracle (Value.str ("ABC123"))).2 ("ABC123") rfl (by decide)⟩

/-- C10 counterexample: `IsLeaveTimeConfirmed = False` is falsy but not
`None`, so contrary to the claim the call does not raise the no-changes
`ToolError`: it issues the PATCH (non-empty request log) and succeeds. -/
theorem C10_falsy_leave_time_counterexample :
    modify_reservation c10_oracle (Value.str ("ABC123"))
        Value.null Value.null Value.null Value.null (Value.bool false)
      = ([⟨HttpMethod.patch, BASE_URL ++ RESTAURANT_NAME ++ "/Booking/ABC123",
           [(("IsLeaveTimeConfirmed"), Value.str ("false"))]⟩],
         Except.ok (Value.str ("ok")))
    ∧ pyTruthy (Value.bool false) = false ∧ Value.bool false ≠ Value.null :=
  ⟨rfl, rfl, fun h => Value.noConfusion h⟩

/-- C10 amended: with a truthy booking reference, falsy `VisitDate`,
`VisitTime` and `SpecialRequests`, and `PartySize` and
`IsLeaveTimeConfirmed` absent (`None`, their default), the payload stays
at length one and `modify_reservation` raises the no-changes `ToolError`
with an empty request log, for every oracle. -/
theorem C10_no_changes_guard (o : Oracle) (ref VisitDate VisitTime SpecialRequests : Value)
    (href : pyTruthy ref = true) (hd : pyTruthy VisitDate = false)
    (ht : pyTruthy VisitTime = false) (hs : pyTruthy SpecialRequests = false) :
    modify_reservation o ref VisitDate VisitTime Value.null SpecialRequests Value.null
      = ([], Except.error (PyErr.toolError
          ("No changes provided. Include at least one field to modify."))) := by
  simp [modify_reservation, href, visitDateField, hd, visitTimeField, ht,
    partySizeField, specialRequestsField, hs, leaveTimeField]

/-- C10 witness: the no-changes guard at a concrete changeless call. -/
theorem C10_no_changes_guard_witness :
    modify_reservation c10_oracle (Value.str ("ABC123"))
        (Value.str ("")) Value.null Value.null Value.null Value.null
      = ([], Except.error (PyErr.toolError
          ("No changes provided. Include at least one field to modify."))) :=
  C10_no_changes_guard c10_oracle (Value.str ("ABC123")) (Value.str ("")) Value.null
    Value.null rfl rfl rfl rfl

/-- C6 counterexample, refuting both parts of the claim.  First, on a
successful `check_reservation` the dispatcher returns the handler's
value unchanged, the JSON dict of the booking API response, not a
string.  Second, a tool-call dict whose `name` value is a JSON array
makes the pre-`try` registry lookup raise `TypeError`, which
`execute_tool` propagates to its caller instead of returning any string. -/
theorem C6_nonstring_result_counterexample :
    ((execute_tool c6_oracle c6_call).2 = Except.ok (Value.dict [(("status"), Value.str ("confirmed"))])
      ∧ ∀ s : String, (execute_tool c6_oracle c6_call).2 ≠ Except.ok (Value.str s))
    ∧ execute_tool c6_oracle [(("name"), Value.list [])]
        = ([], Except.error (PyErr.typeError ("unhashable type: list"))) := by
  refine ⟨⟨rfl, ?_⟩, rfl⟩
  intro s h
  rw [show (execute_tool c6_oracle c6_call).2
        = Except.ok (Value.dict [(("status"), Value.str ("confirmed"))]) from rfl] at h
  exact Value.noConfusion (Except.ok.inj h)

/-- C6 amended: `execute_tool` propagates an exception in exactly one
situation — a tool-call dict whose `name` value is a JSON array or
object, for which the pre-`try` registry lookup raises `TypeError`
before any HTTP request.  In every other case it returns a value: a
registry miss yields the labelled unknown-tool string, a handler
`ToolError` yields `[Tool Error]` followed by the domain error message,
any other handler exception yields an `[Execution Error]` label
containing the tool name and the message, and on handler success the
handler's result is returned unchanged, which need not be a string (see
the counterexample). -/
theorem C6_execute_tool_labels (o : Oracle) (tcd : List (String × Value)) :
    (∀ xs, dGetD tcd ("name") Value.null = Value.list xs →
      execute_tool o tcd = ([], Except.error (PyErr.typeError ("unhashable type: list"))))
    ∧ (∀ kvs, dGetD tcd ("name") Value.null = Value.dict kvs →
      execute_tool o tcd = ([], Except.error (PyErr.typeError ("unhashable type: dict"))))
    ∧ (registryLookup (dGetD tcd ("name") Value.null) = Except.ok Option.none →
      execute_tool o tcd
        = ([], Except.ok (Value.str ("[Error] Unknown tool: `"
            ++ pyStr (dGetD tcd ("name") Value.null) ++ "`"))))
    ∧ (∀ t log m, registryLookup (dGetD tcd ("name") Value.null) = Except.ok (Option.some t) →
        callTool o t (dGetD tcd ("args") (Value.dict [])) = (log, Except.error (PyErr.toolError m)) →
        execute_tool o tcd = (log, Except.ok (Value.str ("[Tool Error] " ++ m))))
    ∧ (∀ t log e, registryLookup (dGetD tcd ("name") Value.null) = Except.ok (Option.some t) →
        callTool o t (dGetD tcd ("args") (Value.dict [])) = (log, Except.error e) →
        (∀ m, e ≠ PyErr.toolError m) →
        execute_tool o tcd
          = (log, Except.ok (Value.str ("[Execution Error] Something went wrong while using `"
              ++ pyStr (dGetD tcd ("name") Value.null) ++ "`: " ++ errMsg e))))
    ∧ (∀ t log v, registryLookup (dGetD tcd ("name") Value.null) = Except.ok (Option.some t) →
        callTool o t (dGetD tcd ("args") (Value.dict [])) = (log, Except.ok v) →
        execute_tool o tcd = (log, Except.ok v)) := by
  refine ⟨?_, ?_, ?_, ?_, ?_, ?_⟩
  · intro xs h
    simp [execute_tool, h, registryLookup]
  · intro kvs h
    simp [execute_tool, h, registryLookup]
  · intro h
    simp [execute_tool, h]
  · intro t log m hreg hcall
    simp [execute_tool, hreg, hcall]
  · intro t log e hreg hcall hne
    cases e with
    | toolError m => exact absurd rfl (hne m)
    | typeError m => simp [execute_tool, hreg, hcall, errMsg]
    | valueError m => simp [execute_tool, hreg, hcall, errMsg]
    | attributeError m => simp [execute_tool, hreg, hcall, errMsg]
    | keyError m => simp [execute_tool, hreg, hcall, errMsg]
  · intro t log v hreg hcall
    simp [execute_tool, hreg, hcall]

/-- C6 witness: the unknown-tool label at a concrete unregistered name. -/
theorem C6_execute_tool_labels_witness :
    execute_tool c6_oracle [(("name"), Value.str ("foo"))]
      = ([], Except.ok (Value.str ("[Error] Unknown tool: `foo`"))) :=
  (C6_execute_tool_labels c6_oracle [(("name"), Value.str ("foo"))]).2.2.1 rfl

/-- C7: the worker coercion turns `people: "4"` into the integer `4`, and
dispatching the coerced `make_reservation` call against a booking API
whose response carries `booking_reference: "ABC123"` yields exactly the
confirmation string of the claim. -/
theorem C7_coercion_and_confirmation :
    data_entry_worker (constW c7_call) = Except.ok (Option.some c7_coerced)
    ∧ (execute_tool c7_oracle c7_dispatch).2
        = Except.ok (Value.str ("Reservation confirmed! Your reference is ABC123.")) :=
  ⟨rfl, rfl⟩

/-- C2: a `modify_reservation` call carrying only a booking reference
(neither a new date nor a new time) passes `_validate_tool_call` and is
dispatched by the pipeline as a tool call, even though the module's own
missing-field computation would flag `new_date_or_new_time` and the
dedicated disambiguation question exists for exactly this case.  This
exhibits the divergence between the claim and the code at this input. -/
theorem C2_changeless_modify_dispatched :
    validate_tool_call c2_call = (true, c2_call)
    ∧ missing_from_tool_call c2_call = Except.ok ["new_date_or_new_time"]
    ∧ compose_missing_question ["new_date_or_new_time"] = disambigMsg
    ∧ process recToDataEntry (constW c2_call) = Except.ok (ProcResult.toolCall c2_call) :=
  ⟨rfl, rfl, rfl, rfl⟩

/-- C5: `process` can raise to its caller.  When the receptionist hands
off and the worker extracts `{"name": ..., "args": null}` (a well-formed
extraction, since `_extract_tool_call` only requires the `tool_call`
value to be a dict), the membership test `"people" in tool_call.get("args", {})`
raises `TypeError`, which nothing in `process` catches. -/
theorem C5_process_raises :
    process recToDataEntry (constW c5_call)
      = Except.error (PyErr.typeError ("argument of type NoneType is not iterable")) :=
  rfl

theorem recAttempt_none_of_invalid (r : Option Value)
    (h : validate_receptionist_json r = false) : recAttempt r = Option.none := by
  cases r with
  | none => rfl
  | some v => simp [recAttempt, h]

/-- C4: when every receptionist attempt fails shape validation, the
receptionist consumes at most its two attempts (its result only depends
on attempts 0 and 1), returns the fixed fallback decision routed as
`to_user`, and the pipeline returns the fixed clarifying question to the
caller as plain text, for every worker oracle. -/
theorem C4_receptionist_fallback (recO workO : Nat → Option Value)
    (h0 : validate_receptionist_json (recO 0) = false)
    (h1 : validate_receptionist_json (recO 1) = false) :
    receptionist recO = recFallback
    ∧ process recO workO
        = Except.ok (ProcResult.text
            ("Could you confirm the date and time (and number of people if booking)?"))
    ∧ (∀ o2 : Nat → Option Value, o2 0 = recO 0 → o2 1 = recO 1 →
        receptionist o2 = receptionist recO) := by
  have hrec : receptionist recO = recFallback := by
    unfold receptionist
    rw [recAttempt_none_of_invalid _ h0, recAttempt_none_of_invalid _ h1]
  refine ⟨hrec, ?_, ?_⟩
  · unfold process
    rw [hrec]
    rfl
  · intro o2 h2 h3
    unfold receptionist
    rw [h2, h3]

/-- C4 witness: both attempts unparseable (transport failure). -/
theorem C4_receptionist_fallback_witness :
    receptionist (fun _ => Option.none) = recFallback
    ∧ process (fun _ => Option.none) (fun _ => Option.none)
        = Except.ok (ProcResult.text
            ("Could you confirm the date and time (and number of people if booking)?")) :=
  ⟨(C4_receptionist_fallback (fun _ => Option.none) (fun _ => Option.none) rfl rfl).1,
   (C4_receptionist_fallback (fun _ => Option.none) (fun _ => Option.none) rfl rfl).2.1⟩

theorem toolLoopAux_spec (proc : Nat → LlmReply) :
    ∀ fuel i, i + fuel = 4 →
      ((toolLoopAux proc fuel (proc i) i).2 ≤ 4
       ∧ (toolLoopAux proc fuel (proc i) i).1 = proc (toolLoopAux proc fuel (proc i) i).2
       ∧ ((toolLoopAux proc fuel (proc i) i).2 < 4 →
          isToolCallReply (proc (toolLoopAux proc fuel (proc i) i).2) = false)) := by
  intro fuel
  induction fuel with
  | zero =>
      intro i hi
      have h4 : i = 4 := by omega
      subst h4
      exact ⟨le_refl 4, rfl, fun h => absurd (show (4 : Nat) < 4 from h) (by omega)⟩
  | succ n ih =>
      intro i hi
      have hlt : i < 4 := by omega
      by_cases hc : isToolCallReply (proc i) = true
      · have hstep : toolLoopAux proc (n + 1) (proc i) i = toolLoopAux proc n (proc (i + 1)) (i + 1) := by
          simp [toolLoopAux, hc, hlt]
        rw [hstep]
        exact ih (i + 1) (by omega)
      · have hcf : isToolCallReply (proc i) = false := by simpa using hc
        have hstep : toolLoopAux proc (n + 1) (proc i) i = (proc i, i) := by
          simp [toolLoopAux, hcf]
        rw [hstep]
        exact ⟨by omega, rfl, fun _ => hcf⟩

/-- C1 counterexample: a pipeline that yields a tool call four times and
then plain text.  Only 4 dispatches happen and the 5th pipeline output is
plain text, so by the claim the final output should be that text; the
code nevertheless substitutes the fixed apology (`i > 3` holds whenever
4 dispatches occurred, whether or not a 5th dispatch was imminent). -/
theorem C1_fifth_output_ignored_counterexample :
    handle_user_input c1_loopProc = (LlmReply.text apologyMsg, 4)
    ∧ c1_loopProc 4 = LlmReply.text ("done")
    ∧ isToolCallReply (c1_loopProc 4) = false
    ∧ apologyMsg ≠ "done" :=
  ⟨rfl, rfl, rfl, by decide⟩

/-- C1 amended: the loop dispatches at most 4 tool calls per invocation;
the fixed apology replaces the output exactly when 4 dispatches occurred
(regardless of what the 5th pipeline output would have been), and with
fewer than 4 dispatches the last pipeline output, plain text, is
returned. -/
theorem C1_dispatch_cap (proc : Nat → LlmReply) :
    (handle_user_input proc).2 ≤ 4
    ∧ ((handle_user_input proc).2 = 4 →
        (handle_user_input proc).1 = LlmReply.text apologyMsg)
    ∧ ((handle_user_input proc).2 < 4 →
        (handle_user_input proc).1 = proc (handle_user_input proc).2
        ∧ isToolCallReply (proc (handle_user_input proc).2) = false) := by
  have hs := toolLoopAux_spec proc 4 0 rfl
  rcases hp : toolLoopAux proc 4 (proc 0) 0 with ⟨r, i⟩
  rw [hp] at hs
  obtain ⟨hle, hr, htc⟩ := hs
  have hh : handle_user_input proc = (if decide (3 < i) = true then LlmReply.text apologyMsg else r, i) := by
    unfold handle_user_input
    rw [hp]
  rw [hh]
  by_cases h4 : i = 4
  · subst h4
    exact ⟨by omega, fun _ => by simp, fun h => absurd h (by omega)⟩
  · have hlt : i < 4 := by
      have : i ≤ 4 := hle
      omega
    have hdec : decide (3 < i) = false := by
      simp only [decide_eq_false_iff_not]
      omega
    simp only [hdec]
    refine ⟨hle, fun he => absurd he h4, fun _ => ⟨by simpa using hr, htc hlt⟩⟩

/-- C1 witness: a text-only pipeline dispatches nothing and its text is
returned unchanged. -/
theorem C1_dispatch_cap_witness :
    (handle_user_input c1_textProc).2 ≤ 4
    ∧ (handle_user_input c1_textProc).1 = c1_textProc (handle_user_input c1_textProc).2 :=
  ⟨(C1_dispatch_cap c1_textProc).1, ((C1_dispatch_cap c1_textProc).2.2 (by decide)).1⟩

theorem coerce_people_canonical (n : String) (akvs : List (String × Value)) :
    ∃ akvs2 : List (String × Value),
      coerce_people (mkToolCall n akvs) = Except.ok (mkToolCall n akvs2)
      ∧ (∀ k, present (dGetD akvs2 k Value.null) = present (dGetD akvs k Value.null)) := by
  have hraw : coerce_people (mkToolCall n akvs)
      = (match (Except.ok (dHasKey akvs ("people")) : Except PyErr Bool) with
         | Except.error e => Except.error e
         | Except.ok false => Except.ok (mkToolCall n akvs)
         | Except.ok true =>
             match (pyIndex (Value.dict akvs) ("people")).bind pyInt with
             | Except.ok z =>
                 Except.ok (Value.dict (dictSet
                   [(("name"), Value.str n), (("args"), Value.dict akvs)] ("args")
                   (Value.dict (dictSet akvs ("people") (Value.int z)))))
             | Except.error _ => Except.ok (mkToolCall n akvs)) := rfl
  cases hk : dHasKey akvs ("people") with
  | false =>
      rw [hk] at hraw
      exact ⟨akvs, hraw, fun k => rfl⟩
  | true =>
      obtain ⟨v, hv⟩ : ∃ v, dLookup akvs ("people") = Option.some v := by
        rcases ho : dLookup akvs ("people") with _ | v
        · rw [dHasKey, ho] at hk
          simp at hk
        · exact ⟨v, rfl⟩
      have hpi : (pyIndex (Value.dict akvs) ("people")).bind pyInt = pyInt v := by
        simp [pyIndex, hv, Except.bind]
      rw [hk, hpi] at hraw
      cases hint : pyInt v with
      | error e =>
          rw [hint] at hraw
          exact ⟨akvs, hraw, fun k => rfl⟩
      | ok z =>
          rw [hint] at hraw
          refine ⟨dictSet akvs ("people") (Value.int z), hraw, ?_⟩
          intro k
          by_cases hkp : k = "people"
          · subst hkp
            rw [dGetD_dictSet_self]
            have h2 : dGetD akvs ("people") Value.null = v := by
              rw [dGetD, hv]
              rfl
            rw [h2, present_of_pyInt_ok v z hint]
            rfl
          · rw [dGetD_dictSet_ne _ _ _ _ _ (beq_eq_false_iff_ne.mpr (fun h => hkp h.symm))]

theorem missing_canonical (n : String) (akvs : List (String × Value)) :
    missing_from_tool_call (mkToolCall n akvs)
      = (match schemaLookup (Value.str n) with
         | Option.none => Except.ok []
         | Option.some sch =>
             if pyEq (Value.str n) (Value.str ("modify_reservation"))
                 && !(present (dGetD akvs ("new_date") Value.null)
                      || present (dGetD akvs ("new_time") Value.null)) then
               Except.ok
                 ((sch.required.filter (fun k => !(present (dGetD akvs k Value.null))))
                  ++ ["new_date_or_new_time"])
             else
               Except.ok (sch.required.filter (fun k => !(present (dGetD akvs k Value.null))))) := by
  have hraw : missing_from_tool_call (mkToolCall n akvs)
      = (match schemaLookup (Value.str n) with
         | Option.none => Except.ok []
         | Option.some sch =>
             match pyOr (Value.dict akvs) (Value.dict []) with
             | Value.dict a2 =>
                 if pyEq (Value.str n) (Value.str ("modify_reservation"))
                     && !(present (dGetD a2 ("new_date") Value.null)
                          || present (dGetD a2 ("new_time") Value.null)) then
                   Except.ok
                     ((sch.required.filter (fun k => !(present (dGetD a2 k Value.null))))
                      ++ ["new_date_or_new_time"])
                 else
                   Except.ok (sch.required.filter (fun k => !(present (dGetD a2 k Value.null))))
             | _ => Except.error (PyErr.attributeError ("object has no attribute get"))) := rfl
  rw [pyOr_dict_empty] at hraw
  exact hraw

theorem missing_canonical_congr (n : String) (a1 a2 : List (String × Value))
    (h : ∀ k, present (dGetD a2 k Value.null) = present (dGetD a1 k Value.null)) :
    missing_from_tool_call (mkToolCall n a2) = missing_from_tool_call (mkToolCall n a1) := by
  rw [missing_canonical, missing_canonical]
  cases schemaLookup (Value.str n) with
  | none => rfl
  | some sch =>
      have hfil : sch.required.filter (fun k => !(present (dGetD a2 k Value.null)))
          = sch.required.filter (fun k => !(present (dGetD a1 k Value.null))) :=
        List.filter_congr (fun k _ => by rw [h k])
      simp only [hfil, h ("new_date"), h ("new_time")]

theorem validate_canonical_false (n : String) (sch : ToolSchema)
    (akvs : List (String × Value)) (k0 : String)
    (hsch : schemaLookup (Value.str n) = Option.some sch)
    (hk : k0 ∈ sch.required)
    (hm : present (dGetD akvs k0 Value.null) = false) :
    validate_tool_call (mkToolCall n akvs) = (false, mkToolCall n akvs) := by
  have hall : sch.required.all (fun k => present (dGetD akvs k Value.null)) = false :=
    all_eq_false_of_mem _ _ k0 hk hm
  have hraw : validate_tool_call (mkToolCall n akvs)
      = (match schemaLookup (Value.str n) with
         | Option.none => (false, mkToolCall n akvs)
         | Option.some sch2 =>
             match pyOr (Value.dict akvs) (Value.dict []) with
             | Value.dict a2 =>
                 if sch2.required.all (fun k => present (dGetD a2 k Value.null)) then
                   (if dHasKey a2 ("people") then
                      match pyInt (dGetD a2 ("people") Value.null) with
                      | Except.ok z =>
                          (true, Value.dict (dictSet
                            [(("name"), Value.str n), (("args"), Value.dict akvs)] ("args")
                            (Value.dict (dictSet a2 ("people") (Value.int z)))))
                      | Except.error _ => (false, mkToolCall n akvs)
                    else (true, mkToolCall n akvs))
                 else (false, mkToolCall n akvs)
             | _ => (false, mkToolCall n akvs)) := rfl
  rw [pyOr_dict_empty] at hraw
  simp only [hsch, hall, Bool.false_eq_true, if_false] at hraw
  exact hraw

theorem process_missing_path (tc tc2 : Value) (M : List String)
    (hw : data_entry_worker (constW tc) = Except.ok (Option.some tc2))
    (htr : pyTruthy tc2 = true)
    (hval : validate_tool_call tc2 = (false, tc2))
    (hmiss : missing_from_tool_call tc2 = Except.ok M)
    (hne : M ≠ []) :
    process recToDataEntry (constW tc)
      = Except.ok (ProcResult.text (compose_missing_question M)) := by
  have hstep : process recToDataEntry (constW tc)
      = (match data_entry_worker (constW tc) with
         | Except.error e => Except.error e
         | Except.ok tcOpt =>
             match tcOpt with
             | Option.some tcx =>
                 if pyTruthy tcx then
                   match validate_tool_call tcx with
                   | (true, tcv) => Except.ok (ProcResult.toolCall tcv)
                   | (false, tcv) =>
                       match missing_from_tool_call tcv with
                       | Except.error e => Except.error e
                       | Except.ok missing =>
                           if missing.isEmpty then Except.ok (ProcResult.text genericErrMsg)
                           else Except.ok (ProcResult.text (compose_missing_question missing))
                 else Except.ok (ProcResult.text genericErrMsg)
             | Option.none => Except.ok (ProcResult.text genericErrMsg)) := rfl
  rw [hstep, hw]
  simp only [htr, if_true, hval, hmiss]
  cases M with
  | nil => exact absurd rfl hne
  | cons k t => rfl

theorem compose_single_contains (k : String)
    (hnc : ([k] : List String).contains ("new_date_or_new_time") = false) :
    strContainsSub (compose_missing_question [k]) (replaceUnderscores k) = true := by
  have hq : compose_missing_question [k]
      = "Got it, could you please share the " ++ replaceUnderscores k ++ "?" := by
    simp only [compose_missing_question, List.isEmpty_cons, hnc]
    rfl
  rw [hq]
  exact strContainsSub_of_data _ _ ("Got it, could you please share the ").data ("?").data
    (by simp [String.data_append, List.append_assoc])

theorem compose_two_contains (k1 k2 : String) (t : List String)
    (hnc : (k1 :: k2 :: t).contains ("new_date_or_new_time") = false) :
    strContainsSub (compose_missing_question (k1 :: k2 :: t)) (replaceUnderscores k1) = true
    ∧ strContainsSub (compose_missing_question (k1 :: k2 :: t)) (replaceUnderscores k2) = true := by
  have hq : compose_missing_question (k1 :: k2 :: t)
      = "Thanks! I still need: " ++ (replaceUnderscores k1 ++ ", " ++ replaceUnderscores k2) ++ "." := by
    simp only [compose_missing_question, List.isEmpty_cons, hnc]
    rfl
  rw [hq]
  constructor
  · exact strContainsSub_of_data _ _ ("Thanks! I still need: ").data
      ((", " ++ replaceUnderscores k2 ++ ".").data)
      (by simp [String.data_append, List.append_assoc])
  · exact strContainsSub_of_data _ _
      (("Thanks! I still need: ").data ++ (replaceUnderscores k1).data ++ (", ").data)
      ((".").data)
      (by simp [String.data_append, List.append_assoc])

/-- C3 counterexample: for the modify call with empty args exactly one
required field (`booking_reference`) is missing, but the pipeline returns
the dedicated disambiguation question, which names neither the field nor
its human-readable form — not a question naming the first missing field
as the claim demands. -/
theorem C3_modify_question_counterexample :
    process recToDataEntry (constW c3_call) = Except.ok (ProcResult.text disambigMsg)
    ∧ missing_from_tool_call c3_call = Except.ok ["booking_reference", "new_date_or_new_time"]
    ∧ SCHEMAS.find? (fun p => p.fst == ("modify_reservation"))
        = Option.some (("modify_reservation"),
            ⟨["booking_reference"],
             ["VisitDate", "VisitTime", "PartySize", "SpecialRequests", "IsLeaveTimeConfirmed"]⟩)
    ∧ strContainsSub disambigMsg ("booking reference") = false
    ∧ strContainsSub disambigMsg ("booking_reference") = false :=
  ⟨rfl, rfl, rfl, rfl, rfl⟩

/-- C3 amended: an extracted tool call of shape `{"name": n, "args": {...}}`
with `n` in the schema registry and some required field non-present is
never dispatched: the pipeline returns a clarifying question instead.
The question is the one composed from the missing-field list; when that
list picks up the `modify_reservation` composite field
`new_date_or_new_time` the dedicated disambiguation question is returned,
and otherwise the question names the first missing field (underscores
replaced by spaces) and, when at least two are missing, the second as
well. -/
theorem C3_missing_required_question (n : String) (sch : ToolSchema)
    (akvs : List (String × Value)) (k0 : String)
    (hsch : schemaLookup (Value.str n) = Option.some sch)
    (hk : k0 ∈ sch.required)
    (hm : present (dGetD akvs k0 Value.null) = false) :
    ∀ M, missing_from_tool_call (mkToolCall n akvs) = Except.ok M →
      M ≠ []
      ∧ process recToDataEntry (constW (mkToolCall n akvs))
          = Except.ok (ProcResult.text (compose_missing_question M))
      ∧ (M.contains ("new_date_or_new_time") = true →
          compose_missing_question M = disambigMsg)
      ∧ (M.contains ("new_date_or_new_time") = false →
          strContainsSub (compose_missing_question M) (replaceUnderscores (M.headD "")) = true
          ∧ (2 ≤ M.length →
              strContainsSub (compose_missing_question M) (replaceUnderscores (M.getD 1 "")) = true)) := by
  intro M hM
  obtain ⟨akvs2, hco, hpres⟩ := coerce_people_canonical n akvs
  have hw : data_entry_worker (constW (mkToolCall n akvs))
      = Except.ok (Option.some (mkToolCall n akvs2)) := by
    simp [data_entry_worker, constW, hco]
  have htr : pyTruthy (mkToolCall n akvs2) = true := rfl
  have hval : validate_tool_call (mkToolCall n akvs2) = (false, mkToolCall n akvs2) :=
    validate_canonical_false n sch akvs2 k0 hsch hk (by rw [hpres k0]; exact hm)
  have hmiss2 : missing_from_tool_call (mkToolCall n akvs2) = Except.ok M := by
    rw [missing_canonical_congr n akvs akvs2 hpres]
    exact hM
  have hk0M : k0 ∈ M := by
    have hmc := missing_canonical n akvs
    rw [hM] at hmc
    simp only [hsch] at hmc
    have hmem : k0 ∈ sch.required.filter (fun k => !(present (dGetD akvs k Value.null))) :=
      List.mem_filter.mpr ⟨hk, by rw [hm]; rfl⟩
    cases hcond : (pyEq (Value.str n) (Value.str ("modify_reservation"))
        && !(present (dGetD akvs ("new_date") Value.null)
             || present (dGetD akvs ("new_time") Value.null))) with
    | true =>
        rw [hcond] at hmc
        rw [if_pos rfl] at hmc
        rw [Except.ok.inj hmc]
        exact List.mem_append_left _ hmem
    | false =>
        rw [hcond] at hmc
        rw [if_neg Bool.false_ne_true] at hmc
        rw [Except.ok.inj hmc]
        exact hmem
  have hne : M ≠ [] := List.ne_nil_of_mem hk0M
  refine ⟨hne, process_missing_path _ _ M hw htr hval hmiss2 hne, ?_, ?_⟩
  · intro hc
    cases M with
    | nil => exact absurd rfl hne
    | cons k t =>
        unfold compose_missing_question
        rw [hc]
        rfl
  · intro hc
    cases M with
    | nil => exact absurd rfl hne
    | cons k t =>
        cases t with
        | nil =>
            refine ⟨compose_single_contains k hc, ?_⟩
            intro h2
            simp at h2
        | cons k2 t2 =>
            obtain ⟨h1, h2⟩ := compose_two_contains k k2 t2 hc
            exact ⟨h1, fun _ => h2⟩

/-- C3 witness: a `check_availability` extraction missing `people` draws
the clarifying question that names it. -/
theorem C3_missing_required_question_witness :
    process recToDataEntry (constW (mkToolCall ("check_availability")
        [(("date"), Value.str ("2025-08-10"))]))
      = Except.ok (ProcResult.text ("Got it, could you please share the people?")) :=
  (C3_missing_required_question ("check_availability") ⟨["date", "people"], []⟩
      [(("date"), Value.str ("2025-08-10"))] ("people") rfl (by simp) rfl
      ["people"] rfl).2.1

end Songbird
